import Mathlib

/-!
Shallow embedding of `neurofinder/job.py` (class `Job`): the submission
lifecycle state machine (mongo-backed status records), the validation pass,
and the execution / metrics-aggregation pass, together with theorems
settling the specification claims about them.

Numbers that may be NaN are modelled as `Option ℚ` (`none` = NaN): the only
floating-point behaviour the claims depend on is NaN propagation through
`numpy.mean` / `numpy.nanmean`.
-/

namespace Neurofinder

/-- A numeric value that may be not-a-number (`none` models NaN). -/
abbrev Val := Option ℚ

/-- `numpy.mean` over a list of possibly-NaN values: the mean of an empty
list is NaN, and any NaN input makes the result NaN. -/
def npMean (xs : List Val) : Val :=
  if xs = [] then none
  else if none ∈ xs then none
  else some (((xs.reduceOption).sum) / (xs.length : ℚ))

/-- `numpy.nanmean`: the mean of the non-NaN entries; NaN when there are
none. -/
def npNanmean (xs : List Val) : Val :=
  let ys := xs.reduceOption
  if ys = [] then none
  else some ((ys.sum) / (ys.length : ℚ))

/-! ## Status store (`self.collection`, a mongo collection)

One document per pull-request id, as inserted by `Job.isentry`
(`job.py` lines 88-97). -/

/-- A document of the status collection: the payload inserted by
`Job.isentry` (`job.py` line 95-96). -/
structure StatusRecord where
  id : Nat
  login : String
  validated : Bool
  executed : Bool
  last_checked : Int
  validated_at : Int
  executed_at : Int
deriving DecidableEq, Repr

/-- The mongo collection, as the ordered list of its documents. -/
abbrev Collection := List StatusRecord

/-- `collection.find_one({"id": i})`: first document whose `id` matches. -/
def find_one (c : Collection) (i : Nat) : Option StatusRecord :=
  c.find? (fun r => r.id == i)

/-- `collection.insert_one(payload)`. -/
def insert_one (c : Collection) (r : StatusRecord) : Collection :=
  c ++ [r]

/-- `collection.update_one({"id": i}, {"$set": ...})`: apply `f` to the
first document whose `id` matches; no-op when none matches. -/
def update_one (c : Collection) (i : Nat) (f : StatusRecord → StatusRecord) :
    Collection :=
  match c with
  | [] => []
  | r :: rs => if r.id == i then f r :: rs else r :: update_one rs i f

/-- The two boolean lifecycle flags a `status` string can name in
`clear_status` / `check_status` / `update_status`. -/
inductive BoolField
  | validated
  | executed
deriving DecidableEq, Repr

/-- `entry[status]` for a flag name. -/
def getFlag (r : StatusRecord) : BoolField → Bool
  | .validated => r.validated
  | .executed => r.executed

/-- `entry[status + "_at"]` for a flag name. -/
def getFlagAt (r : StatusRecord) : BoolField → Int
  | .validated => r.validated_at
  | .executed => r.executed_at

/-- `{"$set": {status: b}}` applied to one document. -/
def setFlag (r : StatusRecord) (f : BoolField) (b : Bool) : StatusRecord :=
  match f with
  | .validated => { r with validated := b }
  | .executed => { r with executed := b }

/-- `{"$set": {status + "_at": t}}` applied to one document. -/
def setFlagAt (r : StatusRecord) (f : BoolField) (t : Int) : StatusRecord :=
  match f with
  | .validated => { r with validated_at := t }
  | .executed => { r with executed_at := t }

/-- The default payload inserted by `Job.isentry` (`job.py` 95-96). -/
def defaultRecord (i : Nat) (login : String) : StatusRecord :=
  { id := i, login := login, validated := false, executed := false,
    last_checked := 0, validated_at := 0, executed_at := 0 }

/-- `Job.isentry` (`job.py` 88-97): insert the default record when the id
has no document yet, otherwise leave the collection unchanged. -/
def isentry (c : Collection) (i : Nat) (login : String) : Collection :=
  match find_one c i with
  | some _ => c
  | none => insert_one c (defaultRecord i login)

/-- `Job.clear_status` (`job.py` 99-103): `$set` the named flag to `False`. -/
def clear_status (c : Collection) (i : Nat) (f : BoolField) : Collection :=
  update_one c i (fun r => setFlag r f false)

/-- `Job.check_status` (`job.py` 105-110): read the named flag
(`none` models the `TypeError` raised when no document exists). -/
def check_status (c : Collection) (i : Nat) (f : BoolField) : Option Bool :=
  (find_one c i).map (fun r => getFlag r f)

/-- `Job.update_status` (`job.py` 112-118): two successive `$set` writes,
first the flag to `True`, then the coupled `..._at` timestamp.
`t` stands for `int(time.mktime(time.gmtime()))`. -/
def update_status (c : Collection) (i : Nat) (f : BoolField) (t : Int) :
    Collection :=
  update_one (update_one c i (fun r => setFlag r f true)) i
    (fun r => setFlagAt r f t)

/-- `Job.isrecent` (`job.py` 75-86): compare the stored `last_checked`
against the epoch conversion of the pull request's `updated_at`
(`int(time.mktime(pull_req.updated_at.utctimetuple()))`, passed in here as
`updated_at`). `none` models the exception raised when no document exists. -/
def isrecent (c : Collection) (i : Nat) (updated_at : Int) : Option Bool :=
  (find_one c i).map (fun r => if r.last_checked < updated_at then true else false)

/-! ### Helper lemmas on the status store -/

theorem find_one_cons_pos (a : StatusRecord) (c : Collection) (i : Nat)
    (h : a.id = i) : find_one (a :: c) i = some a := by
  simp [find_one, List.find?_cons, h]

theorem find_one_cons_neg (a : StatusRecord) (c : Collection) (i : Nat)
    (h : ¬ a.id = i) : find_one (a :: c) i = find_one c i := by
  simp [find_one, List.find?_cons, h]

theorem find_one_append_right (c : Collection) (i : Nat) (r : StatusRecord)
    (h : find_one c i = none) (hr : r.id = i) :
    find_one (c ++ [r]) i = some r := by
  induction c with
  | nil => simp [find_one, List.find?, hr]
  | cons a c ih =>
    by_cases hb : a.id = i
    · rw [find_one_cons_pos a c i hb] at h
      exact absurd h (by simp)
    · rw [find_one_cons_neg a c i hb] at h
      rw [List.cons_append, find_one_cons_neg a _ i hb]
      exact ih h

theorem find_one_update_one (c : Collection) (i : Nat)
    (f : StatusRecord → StatusRecord) (hf : ∀ r, (f r).id = r.id) :
    find_one (update_one c i f) i = (find_one c i).map f := by
  induction c with
  | nil => simp [find_one, update_one]
  | cons a c ih =>
    by_cases h : a.id = i
    · have hb : (a.id == i) = true := by simp [h]
      have hu : update_one (a :: c) i f = f a :: c := by simp [update_one, hb]
      rw [hu, find_one_cons_pos _ _ _ (by rw [hf]; exact h),
        find_one_cons_pos _ _ _ h]
      rfl
    · have hb : (a.id == i) = false := by simp [h]
      have hu : update_one (a :: c) i f = a :: update_one c i f := by
        simp [update_one, hb]
      rw [hu, find_one_cons_neg _ _ _ h, find_one_cons_neg _ _ _ h, ih]

theorem setFlag_id (r : StatusRecord) (f : BoolField) (b : Bool) :
    (setFlag r f b).id = r.id := by
  cases f <;> rfl

theorem setFlagAt_id (r : StatusRecord) (f : BoolField) (t : Int) :
    (setFlagAt r f t).id = r.id := by
  cases f <;> rfl

theorem find_one_update_status (c : Collection) (i : Nat) (f : BoolField)
    (t : Int) :
    find_one (update_status c i f t) i =
      (find_one c i).map (fun r => setFlagAt (setFlag r f true) f t) := by
  unfold update_status
  rw [find_one_update_one _ _ _ (fun r => setFlagAt_id r f t),
    find_one_update_one _ _ _ (fun r => setFlag_id r f true)]
  cases find_one c i <;> rfl

theorem find_one_clear_status (c : Collection) (i : Nat) (f : BoolField) :
    find_one (clear_status c i f) i =
      (find_one c i).map (fun r => setFlag r f false) := by
  unfold clear_status
  exact find_one_update_one _ _ _ (fun r => setFlag_id r f false)

theorem isentry_found (c : Collection) (i : Nat) (login : String)
    (e : StatusRecord) (h : find_one c i = some e) : isentry c i login = c := by
  unfold isentry
  rw [h]

/-- The record left behind by `update_status` followed by `clear_status`. -/
def afterMarkClear (e : StatusRecord) (f : BoolField) (t : Int) : StatusRecord :=
  setFlag (setFlagAt (setFlag e f true) f t) f false

/-! ## Claim theorems about the status store -/

/-- **C3.** `Job.isrecent` on a submission with an existing status record
returns `true` iff the stored `last_checked` is strictly below the epoch
conversion of `updated_at`, and `false` when they are equal or when
`last_checked` is later. (The embedding is a pure read: `isrecent` takes the
collection and returns only a value, mirroring the write-free source.) -/
theorem isrecent_strict_comparison (c : Collection) (i : Nat)
    (updated_at : Int) (e : StatusRecord) (h : find_one c i = some e) :
    (isrecent c i updated_at = some true ↔ e.last_checked < updated_at) ∧
    (isrecent c i updated_at = some false ↔ updated_at ≤ e.last_checked) := by
  unfold isrecent
  rw [h]
  by_cases hlt : e.last_checked < updated_at
  · simp [hlt, not_le.mpr hlt]
  · simp [hlt, not_lt.mp hlt]

theorem isrecent_strict_comparison_witness :
    (find_one [defaultRecord 7 "alice"] 7 = some (defaultRecord 7 "alice")) ∧
    (isrecent [defaultRecord 7 "alice"] 7 5 = some true ↔
      (defaultRecord 7 "alice").last_checked < 5) ∧
    (isrecent [defaultRecord 7 "alice"] 7 0 = some false ↔
      (0 : Int) ≤ (defaultRecord 7 "alice").last_checked) := by
  refine ⟨by decide, (isrecent_strict_comparison _ _ _ _ (by decide)).1,
    (isrecent_strict_comparison _ _ _ _ (by decide)).2⟩

/-- **C4.** `Job.isentry` on a fresh id inserts exactly the default record
(all flags false, all timestamps 0, plus id and login); any number of
further `isentry` calls leaves the collection unchanged, and `check_status`
on `validated` then reads `false`. -/
theorem isentry_idempotent (c : Collection) (i : Nat) (login : String)
    (h : find_one c i = none) :
    find_one (isentry c i login) i = some (defaultRecord i login) ∧
    (∀ n : Nat, (fun cc => isentry cc i login)^[n] (isentry c i login) =
      isentry c i login) ∧
    check_status (isentry c i login) i BoolField.validated = some false := by
  have hfind : find_one (isentry c i login) i = some (defaultRecord i login) := by
    unfold isentry
    rw [h]
    exact find_one_append_right c i _ h rfl
  have hfix : isentry (isentry c i login) i login = isentry c i login :=
    isentry_found _ _ _ _ hfind
  refine ⟨hfind, ?_, ?_⟩
  · intro n
    induction n with
    | zero => rfl
    | succ n ih => rw [Function.iterate_succ_apply, hfix, ih]
  · unfold check_status
    rw [hfind]
    rfl

theorem isentry_idempotent_witness :
    (find_one ([] : Collection) 7 = none) ∧
    find_one (isentry [] 7 "bob") 7 = some (defaultRecord 7 "bob") ∧
    ((fun cc => isentry cc 7 "bob")^[3] (isentry [] 7 "bob") =
      isentry [] 7 "bob") ∧
    check_status (isentry [] 7 "bob") 7 BoolField.validated = some false := by
  have h := isentry_idempotent [] 7 "bob" (by decide)
  exact ⟨by decide, h.1, h.2.1 3, h.2.2⟩

/-- **C10.** `Job.clear_status` sets only the named boolean flag to false:
the coupled `..._at` timestamp and every other field keep their values. In
particular `update_status` (flag true, timestamp `t`) followed by
`clear_status` leaves the record with the flag false and the timestamp
still `t` (non-zero when `t` is). -/
theorem clear_status_only_flag (c : Collection) (i : Nat) (f : BoolField)
    (e : StatusRecord) (t : Int) (h : find_one c i = some e) (ht : t ≠ 0) :
    find_one (clear_status c i f) i = some (setFlag e f false) ∧
    getFlag (setFlag e f false) f = false ∧
    getFlagAt (setFlag e f false) f = getFlagAt e f ∧
    (setFlag e f false).last_checked = e.last_checked ∧
    (setFlag e f false).id = e.id ∧
    (setFlag e f false).login = e.login ∧
    (∀ g : BoolField, g ≠ f → getFlag (setFlag e f false) g = getFlag e g) ∧
    find_one (clear_status (update_status c i f t) i f) i =
      some (afterMarkClear e f t) ∧
    getFlag (afterMarkClear e f t) f = false ∧
    getFlagAt (afterMarkClear e f t) f = t ∧
    getFlagAt (afterMarkClear e f t) f ≠ 0 ∧
    (afterMarkClear e f t).last_checked = e.last_checked := by
  refine ⟨?_, ?_, ?_, ?_, ?_, ?_, ?_, ?_, ?_, ?_, ?_, ?_⟩
  · rw [find_one_clear_status, h]
    rfl
  · cases f <;> rfl
  · cases f <;> rfl
  · cases f <;> rfl
  · cases f <;> rfl
  · cases f <;> rfl
  · intro g hg
    cases f <;> cases g <;> first | rfl | exact absurd rfl hg
  · rw [find_one_clear_status, find_one_update_status, h]
    rfl
  · cases f <;> rfl
  · cases f <;> rfl
  · cases f <;> simpa [afterMarkClear, setFlag, setFlagAt, getFlagAt] using ht
  · cases f <;> rfl

theorem clear_status_only_flag_witness :
    (find_one [defaultRecord 7 "eve"] 7 = some (defaultRecord 7 "eve")) ∧
    ((42 : Int) ≠ 0) ∧
    find_one
      (clear_status (update_status [defaultRecord 7 "eve"] 7
        BoolField.executed 42) 7 BoolField.executed) 7 =
      some (afterMarkClear (defaultRecord 7 "eve") BoolField.executed 42) ∧
    getFlag (afterMarkClear (defaultRecord 7 "eve") BoolField.executed 42)
      BoolField.executed = false ∧
    getFlagAt (afterMarkClear (defaultRecord 7 "eve") BoolField.executed 42)
      BoolField.executed = 42 := by
  have h := clear_status_only_flag [defaultRecord 7 "eve"] 7
    BoolField.executed (defaultRecord 7 "eve") 42 (by decide) (by decide)
  exact ⟨by decide, by decide, h.2.2.2.2.2.2.2.1, h.2.2.2.2.2.2.2.2.1,
    h.2.2.2.2.2.2.2.2.2.1⟩

/-! ## Executor (`Job.execute`, `job.py` 216-304)

The external collaborators inside the dataset loop (Spark/Thunder dataset
loading, the user code `run.run`, the metric computations, `load_info`,
`post_image`) are modelled as one per-dataset outcome: either the values
they produced or an exception (anything raised inside an iteration of the
`try` block). -/

/-- What the external calls of one loop iteration produce when nothing
raises: `truth.similarity(...)`, the `truth.overlap(...)` array, the
`truth.distance(...)` array, `sources.count`, `sources.areas`, and the
`contributors` list from the dataset's `info.json`. -/
structure DatasetData where
  accuracy : Val
  overlapArr : List Val
  distanceArr : List Val
  count : Val
  areas : List Val
  contributorsList : List String
deriving DecidableEq, Repr

/-- Outcome of one iteration of the dataset loop: values, or an exception
raised anywhere in the iteration (load, user code, metrics, `load_info`,
`post_image`). -/
inductive StepOutcome
  | ok (d : DatasetData)
  | fail
deriving DecidableEq, Repr

/-- One entry of a metric's list: `{"dataset": ..., "contributors": ...,
"value": ...}` (`job.py` 261-281). -/
structure MetricRecord where
  dataset : String
  contributors : String
  value : Val
deriving DecidableEq, Repr

/-- The `metrics` dict of `execute` (`job.py` 244). -/
structure Metrics where
  accuracy : List MetricRecord
  overlap : List MetricRecord
  distance : List MetricRecord
  count : List MetricRecord
  area : List MetricRecord
deriving DecidableEq, Repr

/-- `metrics = {'accuracy': [], 'overlap': [], 'distance': [], 'count': [],
'area': []}`. -/
def emptyMetrics : Metrics :=
  { accuracy := [], overlap := [], distance := [], count := [], area := [] }

/-- The appends performed by one successful loop iteration
(`job.py` 252-281): raw `accuracy` and `count`, `nanmean` of the per-source
`overlap` and `distance` arrays, plain `mean` of the areas. -/
def appendStep (m : Metrics) (name : String) (d : DatasetData) : Metrics :=
  let contributors := String.intercalate ", " d.contributorsList
  { accuracy := m.accuracy ++ [⟨name, contributors, d.accuracy⟩],
    overlap := m.overlap ++ [⟨name, contributors, npNanmean d.overlapArr⟩],
    distance := m.distance ++ [⟨name, contributors, npNanmean d.distanceArr⟩],
    count := m.count ++ [⟨name, contributors, d.count⟩],
    area := m.area ++ [⟨name, contributors, npMean d.areas⟩] }

/-- The key `post_image` writes for a dataset (`job.py` 172, with the
default `filename='sources'`). -/
def imageKey (i : Nat) (name : String) : String :=
  "neurofinder/images/" ++ toString i ++ "/" ++ name ++ "/" ++ "sources" ++ ".png"

/-- The per-metric overall append (`job.py` 286-288): one synthetic record
whose value is the plain `mean` of the per-dataset values. -/
def appendOverall (recs : List MetricRecord) : List MetricRecord :=
  recs ++ [⟨"overall", "", npMean (recs.map (fun v => v.value))⟩]

/-- `for k in metrics.keys(): ...` — the same plain-`mean` overall append
for every metric key (`job.py` 286-288). -/
def appendOverallAll (m : Metrics) : Metrics :=
  { accuracy := appendOverall m.accuracy,
    overlap := appendOverall m.overlap,
    distance := appendOverall m.distance,
    count := appendOverall m.count,
    area := appendOverall m.area }

/-- Observable interactions with the execution engine session. -/
inductive EngineEvent
  | start
  | load (name : String)
  | publish (name : String)
  | stop
deriving DecidableEq, Repr

/-- Number of `stop` events in a trace. -/
def countStop : List EngineEvent → Nat
  | [] => 0
  | .stop :: es => countStop es + 1
  | _ :: es => countStop es

/-- Accumulated state of the dataset loop: the metrics dict, the S3 image
keys published so far, and the engine-event trace. -/
structure LoopState where
  metrics : Metrics
  images : List String
  events : List EngineEvent
deriving DecidableEq, Repr

/-- The fixed benchmark list (`job.py` 242). -/
def datasets : List String := ["00.00", "00.01"]

/-- The `for ii, name in enumerate(datasets)` loop inside the `try` block
(`job.py` 247-284). Returns the final state plus `true` on success; an
exception aborts the loop, keeping whatever was already published, and
returns `false` (the `except` path). -/
def runLoop (i : Nat) (engine : String → StepOutcome) :
    List String → LoopState → LoopState × Bool
  | [], s => (s, true)
  | name :: rest, s =>
    match engine name with
    | .fail => ({ s with events := s.events ++ [.load name] }, false)
    | .ok d =>
      runLoop i engine rest
        { metrics := appendStep s.metrics name d,
          images := s.images ++ [imageKey i name],
          events := s.events ++ [.load name, .publish name] }

/-- Result of `Job.execute`: the returned `(metrics, info)` pair plus the
externally observable effects (status collection, messages passed to
`send_message`, published images, engine-event trace). -/
structure ExecResult where
  metrics : Option Metrics
  info : String
  collection : Collection
  sent : List String
  images : List String
  events : List EngineEvent
deriving DecidableEq, Repr

/-- `Job.execute` (`job.py` 216-304), from the point where the engine
session is started (line 238). `info` is the metadata parsed at line 225
(execute propagates, uncaught, any failure before the `try` block);
`engine` is the external world's response per dataset; `t` is the
`update_status` timestamp. On success (line 286-292): append the overall
records, mark `executed`; on any exception inside the `try` (line 294-298):
`metrics = None`, collection untouched. Both paths then `send_message` and
`tsc.stop()` (lines 300-302). -/
def execute (i : Nat) (info : String) (engine : String → StepOutcome)
    (c : Collection) (t : Int) : ExecResult :=
  match runLoop i engine datasets
      { metrics := emptyMetrics, images := [], events := [.start] } with
  | (s, true) =>
    { metrics := some (appendOverallAll s.metrics), info := info,
      collection := update_status c i BoolField.executed t,
      sent := ["Execution successful"], images := s.images,
      events := s.events ++ [.stop] }
  | (s, false) =>
    { metrics := none, info := info, collection := c,
      sent := ["Execution failed"], images := s.images,
      events := s.events ++ [.stop] }

/-! ### Helper lemmas on the executor -/

theorem countStop_append (a b : List EngineEvent) :
    countStop (a ++ b) = countStop a + countStop b := by
  induction a with
  | nil => simp [countStop]
  | cons e a ih =>
    cases e with
    | start => simp [countStop, ih]
    | load name => simp [countStop, ih]
    | publish name => simp [countStop, ih]
    | stop =>
      show countStop (a ++ b) + 1 = countStop a + 1 + countStop b
      rw [ih]
      omega

theorem runLoop_countStop (i : Nat) (engine : String → StepOutcome)
    (names : List String) (s : LoopState) :
    countStop (runLoop i engine names s).1.events = countStop s.events := by
  induction names generalizing s with
  | nil => rfl
  | cons name rest ih =>
    unfold runLoop
    cases engine name with
    | fail => simp [countStop_append, countStop]
    | ok d => rw [ih]; simp [countStop_append, countStop]

/-! ## Claim theorems about the executor -/

/-- **C8.** Every run of `execute` (having started the engine session)
stops it exactly once before returning, on success and on failure alike:
the event trace of `execute` contains exactly one `stop`. -/
theorem execute_stops_once (i : Nat) (info : String)
    (engine : String → StepOutcome) (c : Collection) (t : Int) :
    countStop (execute i info engine c t).events = 1 := by
  unfold execute
  rcases hr : runLoop i engine datasets
      { metrics := emptyMetrics, images := [], events := [.start] } with ⟨s, ok⟩
  have hs : countStop s.events = 0 := by
    have := runLoop_countStop i engine datasets
      { metrics := emptyMetrics, images := [], events := [.start] }
    rw [hr] at this
    simpa [countStop] using this
  cases ok <;> simp [countStop_append, countStop, hs]

/-- **C7.** If any dataset iteration raises (in particular the second one,
after the first already succeeded and published its image), `execute`
returns `metrics = None` — never a partial structure — leaves the status
collection untouched (no `executed` mark), and sends the failure
notification. -/
theorem execute_failure_null_metrics (i : Nat) (info : String)
    (engine : String → StepOutcome) (c : Collection) (t : Int)
    (h : ∃ name, name ∈ datasets ∧ engine name = StepOutcome.fail) :
    (execute i info engine c t).metrics = none ∧
    (execute i info engine c t).collection = c ∧
    (execute i info engine c t).sent = ["Execution failed"] := by
  obtain ⟨name, hmem, hfail⟩ := h
  have hcases : name = "00.00" ∨ name = "00.01" := by
    simpa [datasets] using hmem
  rcases hcases with h0 | h1
  · rw [h0] at hfail
    simp [execute, datasets, runLoop, hfail]
  · rw [h1] at hfail
    cases he : engine "00.00" with
    | fail => simp [execute, datasets, runLoop, he]
    | ok d => simp [execute, datasets, runLoop, he, hfail]

/-- Concrete dataset values used by the executor witnesses. -/
def sampleData : DatasetData :=
  { accuracy := some (4/5), overlapArr := [some (1/2)],
    distanceArr := [some 1, none], count := some 10, areas := [some 3],
    contributorsList := ["ann", "ben"] }

/-- Engine behaviour: first dataset succeeds, second raises. -/
def engineSecondFails : String → StepOutcome :=
  fun name => if name = "00.00" then StepOutcome.ok sampleData else StepOutcome.fail

theorem execute_failure_null_metrics_witness :
    (∃ name, name ∈ datasets ∧ engineSecondFails name = StepOutcome.fail) ∧
    (execute 7 "info" engineSecondFails [defaultRecord 7 "eve"] 42).images =
      [imageKey 7 "00.00"] ∧
    (execute 7 "info" engineSecondFails [defaultRecord 7 "eve"] 42).metrics = none ∧
    (execute 7 "info" engineSecondFails [defaultRecord 7 "eve"] 42).collection =
      [defaultRecord 7 "eve"] ∧
    (execute 7 "info" engineSecondFails [defaultRecord 7 "eve"] 42).sent =
      ["Execution failed"] := by
  have h := execute_failure_null_metrics 7 "info" engineSecondFails
    [defaultRecord 7 "eve"] 42 ⟨"00.01", by decide, by decide⟩
  exact ⟨⟨"00.01", by decide, by decide⟩, by decide, h.1, h.2.1, h.2.2⟩

/-- First benchmark dataset for the metric-aggregation scenario: one source
overlap of `1/2`, so the per-dataset overlap value is `nanmean [1/2] = 1/2`. -/
def overlapHalfData : DatasetData :=
  { accuracy := some 1, overlapArr := [some (1/2)], distanceArr := [some 1],
    count := some 10, areas := [some 2], contributorsList := ["ann"] }

/-- Second benchmark dataset: empty overlap array, so the per-dataset
overlap value is `nanmean [] = NaN`; its count is NaN too. -/
def overlapNanData : DatasetData :=
  { accuracy := some 1, overlapArr := [], distanceArr := [some 1],
    count := none, areas := [some 2], contributorsList := [] }

/-- Engine behaviour where both datasets succeed, with per-dataset overlap
values `[1/2, NaN]`. -/
def engineBothOk : String → StepOutcome :=
  fun name => if name = "00.00" then StepOutcome.ok overlapHalfData
    else StepOutcome.ok overlapNanData

/-- **C1 counterexample.** With per-dataset overlap values `[1/2, NaN]`,
the code's overall overlap value (`job.py` 287 uses plain `mean` for every
metric key) is NaN, not the `1/2` that nan-mean semantics — what the claim
asserts for `overlap` — would give. -/
theorem overall_overlap_not_nanmean_ce :
    ((execute 7 "info" engineBothOk [] 42).metrics.map
      (fun m => m.overlap.map (fun v => v.value))) =
      some [some (1/2 : ℚ), none, none] ∧
    npNanmean [some (1/2 : ℚ), none] = some (1/2 : ℚ) ∧
    (none : Val) ≠ some (1/2 : ℚ) := by
  refine ⟨?_, ?_, by simp⟩
  · simp [execute, datasets, runLoop, engineBothOk, overlapHalfData,
      overlapNanData, appendStep, appendOverallAll, appendOverall,
      emptyMetrics, npMean, npNanmean, List.reduceOption]
  · simp [npNanmean, List.reduceOption]

/-- **C1 (amended).** The overall synthetic record appended per metric
after all datasets are processed uses the plain arithmetic mean
(`numpy.mean`) of the per-dataset values for **all five** metrics —
`overlap` and `distance` included — so a NaN per-dataset entry propagates
into the overall figure for every metric; nan-mean semantics apply only
when each dataset's per-source `overlap`/`distance` arrays are reduced to
that dataset's value. -/
theorem overall_mean_plain (i : Nat) (info : String)
    (engine : String → StepOutcome) (c : Collection) (t : Int)
    (d1 d2 : DatasetData) (h1 : engine "00.00" = StepOutcome.ok d1)
    (h2 : engine "00.01" = StepOutcome.ok d2) :
    ((execute i info engine c t).metrics.map
      (fun m => m.overlap.map (fun v => v.value))) =
      some [npNanmean d1.overlapArr, npNanmean d2.overlapArr,
        npMean [npNanmean d1.overlapArr, npNanmean d2.overlapArr]] ∧
    ((execute i info engine c t).metrics.map
      (fun m => m.distance.map (fun v => v.value))) =
      some [npNanmean d1.distanceArr, npNanmean d2.distanceArr,
        npMean [npNanmean d1.distanceArr, npNanmean d2.distanceArr]] ∧
    ((execute i info engine c t).metrics.map
      (fun m => m.accuracy.map (fun v => v.value))) =
      some [d1.accuracy, d2.accuracy, npMean [d1.accuracy, d2.accuracy]] ∧
    ((execute i info engine c t).metrics.map
      (fun m => m.count.map (fun v => v.value))) =
      some [d1.count, d2.count, npMean [d1.count, d2.count]] ∧
    ((execute i info engine c t).metrics.map
      (fun m => m.area.map (fun v => v.value))) =
      some [npMean d1.areas, npMean d2.areas,
        npMean [npMean d1.areas, npMean d2.areas]] ∧
    (∀ vals : List Val, none ∈ vals → npMean vals = none) := by
  have hprop : ∀ vals : List Val, none ∈ vals → npMean vals = none := by
    intro vals hv
    have hne : vals ≠ [] := by
      rintro rfl
      simp at hv
    simp [npMean, hne, hv]
  refine ⟨?_, ?_, ?_, ?_, ?_, hprop⟩ <;>
    simp [execute, datasets, runLoop, h1, h2, appendStep, appendOverallAll,
      appendOverall, emptyMetrics]

theorem overall_mean_plain_witness :
    (engineBothOk "00.00" = StepOutcome.ok overlapHalfData) ∧
    (engineBothOk "00.01" = StepOutcome.ok overlapNanData) ∧
    ((execute 7 "info" engineBothOk [] 42).metrics.map
      (fun m => m.count.map (fun v => v.value))) =
      some [overlapHalfData.count, overlapNanData.count,
        npMean [overlapHalfData.count, overlapNanData.count]] ∧
    npMean [overlapHalfData.count, overlapNanData.count] = none := by
  have h := overall_mean_plain 7 "info" engineBothOk [] 42
    overlapHalfData overlapNanData rfl rfl
  exact ⟨rfl, rfl, h.2.2.2.1,
    h.2.2.2.2.2 [overlapHalfData.count, overlapNanData.count]
      (by simp [overlapNanData])⟩

/-! ## Validator (`Job.validate`, `job.py` 306-360)

The filesystem and github lookups are inputs; the `try` outcomes around
`info.json` and around `importlib.import_module('run')` are three-valued,
matching the `except` clauses in the source. Note the source catches
**only** `ImportError` around the import (line 348): an import-time
exception of any other class propagates out of `validate`, modelled as
`Except.error`. -/

/-- Outcome of `open(base + 'info.json').read()` + `json.loads`
(`job.py` 328-336): fine, `IOError`, or `ValueError`. -/
inductive InfoOutcome
  | ok
  | ioError
  | parseError
deriving DecidableEq, Repr

/-- Outcome of `importlib.import_module('run')` (`job.py` 345-350): it
either loads fine, raises `ImportError` (caught), or raises an exception
of any other class at module load time (not caught). -/
inductive LoadOutcome
  | ok
  | importError
  | raised
deriving DecidableEq, Repr

/-- The external facts `validate` consults, in source order. -/
structure VEnv where
  mergeable : Bool
  base_isdir : Bool
  info_isfile : Bool
  infoOutcome : InfoOutcome
  runpy_isfile : Bool
  init_isfile : Bool
  loadOutcome : LoadOutcome
deriving DecidableEq, Repr

/-- Result of a `validate` call that terminates normally: the final
`validated`/`msg` locals, the status collection afterwards, the messages
passed to `send_message`, and the Python return value — `validate` has no
return statement, so `ret` is always `none` (Python `None`). -/
structure VResult where
  validated : Bool
  msg : String
  collection : Collection
  sent : List String
  ret : Option (Bool × String)
deriving DecidableEq, Repr

/-- `job.py` 352-360: on success set the `validated` flag via
`update_status`, on failure prepend the header and leave the collection
alone; either way `send_message(msg)` and fall off the end (return `None`). -/
def validateFinish (s : Bool × String) (c : Collection) (i : Nat) (t : Int) :
    VResult :=
  if s.1 then
    { validated := true, msg := "Validation successful",
      collection := update_status c i BoolField.validated t,
      sent := ["Validation successful"], ret := none }
  else
    { validated := false, msg := "Validation failed:\n" ++ s.2,
      collection := c, sent := ["Validation failed:\n" ++ s.2], ret := none }

/-- Check 1 (`job.py` 317-319): mergeability. -/
def check1 (env : VEnv) : Bool × String :=
  if env.mergeable then (true, "")
  else (false, "Submission cannot be merged\n")

/-- Check 2 (`job.py` 321-323): the submission directory. -/
def check2 (env : VEnv) (login : String) (s : Bool × String) : Bool × String :=
  if env.base_isdir then s
  else (false, s.2 ++ ("Missing directory submissions/" ++ login ++ "\n"))

/-- Check 3 (`job.py` 324-336): `info.json` present, openable, parseable. -/
def check3 (env : VEnv) (s : Bool × String) : Bool × String :=
  if env.info_isfile then
    match env.infoOutcome with
    | .ok => s
    | .ioError => (false, s.2 ++ "Cannot find info.json file\n")
    | .parseError => (false, s.2 ++ "Error parsing info.json file\n")
  else (false, s.2 ++ "Missing info.json\n")

/-- Check 4 (`job.py` 338-340): `run.py` present. -/
def check4 (env : VEnv) (s : Bool × String) : Bool × String :=
  if env.runpy_isfile then s
  else (false, s.2 ++ "Missing run.py\n")

/-- The `(validated, errors)` pair after the first four checks. -/
def checksResult (env : VEnv) (login : String) : Bool × String :=
  check4 env (check3 env (check2 env login (check1 env)))

/-- `Job.validate` (`job.py` 306-360). The last check (`job.py` 341-350):
if `__init__.py` is missing, record that; otherwise attempt the import,
catching only `ImportError` — any other import-time exception escapes the
function (`Except.error ()`). -/
def validate (env : VEnv) (c : Collection) (i : Nat) (login : String)
    (t : Int) : Except Unit VResult :=
  if env.init_isfile then
    match env.loadOutcome with
    | .ok => Except.ok (validateFinish (checksResult env login) c i t)
    | .importError =>
      Except.ok (validateFinish
        (false, (checksResult env login).2 ++ "Cannot import run from run.py") c i t)
    | .raised => Except.error ()
  else
    Except.ok (validateFinish
      (false, (checksResult env login).2 ++ "Missing __init__.py\n") c i t)

/-- The message of a normally-returning `validate` call (`""` on the
propagating path, which sends nothing). -/
def okMsg (x : Except Unit VResult) : String :=
  match x with
  | .ok r => r.msg
  | .error _ => ""

/-- `s` contains `pat` as a contiguous substring. -/
def containsStr (s pat : String) : Prop :=
  ∃ l r : List Char, s.data = l ++ (pat.data ++ r)

instance (s pat : String) : Decidable (containsStr s pat) :=
  decidable_of_iff (pat.data <:+: s.data) (by
    constructor
    · rintro ⟨l, r, h⟩
      exact ⟨l, r, by rw [← h]; simp⟩
    · rintro ⟨l, r, h⟩
      exact ⟨l, r, by rw [h]; simp⟩)

/-- The spec-side success verdict, written from the spec's words: `ok`
holds exactly when none of the seven checks failed. Used to compare the
code's `validated` local against the specified contract. -/
def specOkVerdict (env : VEnv) : Bool :=
  env.mergeable && env.base_isdir && env.info_isfile &&
    (env.infoOutcome == InfoOutcome.ok) && env.runpy_isfile &&
    env.init_isfile && (env.loadOutcome == LoadOutcome.ok)

/-! ### Helper lemmas on the validator -/

theorem containsStr_append_left (s t pat : String) (h : containsStr s pat) :
    containsStr (s ++ t) pat := by
  obtain ⟨l, r, hd⟩ := h
  exact ⟨l, r ++ t.data, by rw [String.data_append, hd]; simp⟩

theorem containsStr_append_right (s t pat : String) (h : containsStr t pat) :
    containsStr (s ++ t) pat := by
  obtain ⟨l, r, hd⟩ := h
  exact ⟨s.data ++ l, r, by rw [String.data_append, hd]; simp⟩

theorem validateFinish_of_false (e : String) (c : Collection) (i : Nat)
    (t : Int) :
    validateFinish (false, e) c i t =
      { validated := false, msg := "Validation failed:\n" ++ e,
        collection := c, sent := ["Validation failed:\n" ++ e],
        ret := none } := rfl

theorem validateFinish_validated (s : Bool × String) (c : Collection)
    (i : Nat) (t : Int) : (validateFinish s c i t).validated = s.1 := by
  rcases s with ⟨v, e⟩
  cases v <;> rfl

theorem validateFinish_ret (s : Bool × String) (c : Collection)
    (i : Nat) (t : Int) : (validateFinish s c i t).ret = none := by
  rcases s with ⟨v, e⟩
  cases v <;> rfl

theorem validateFinish_collection_of_false (s : Bool × String)
    (c : Collection) (i : Nat) (t : Int) (h : s.1 = false) :
    (validateFinish s c i t).collection = c := by
  rcases s with ⟨v, e⟩
  cases v
  · rfl
  · exact absurd h (by simp)

theorem check2_snd (env : VEnv) (login : String) (s : Bool × String) :
    ∃ a : String, (check2 env login s).2 = s.2 ++ a := by
  unfold check2
  by_cases h : env.base_isdir
  · exact ⟨"", by simp [h]⟩
  · exact ⟨"Missing directory submissions/" ++ login ++ "\n", by simp [h]⟩

theorem check3_snd (env : VEnv) (s : Bool × String) :
    ∃ a : String, (check3 env s).2 = s.2 ++ a := by
  unfold check3
  by_cases h : env.info_isfile
  · cases ho : env.infoOutcome
    · exact ⟨"", by simp [h, ho]⟩
    · exact ⟨"Cannot find info.json file\n", by simp [h, ho]⟩
    · exact ⟨"Error parsing info.json file\n", by simp [h, ho]⟩
  · exact ⟨"Missing info.json\n", by simp [h]⟩

theorem check2_fst_false (env : VEnv) (login : String) (s : Bool × String)
    (h : s.1 = false) : (check2 env login s).1 = false := by
  unfold check2
  by_cases hb : env.base_isdir <;> simp [hb, h]

theorem check3_fst_false (env : VEnv) (s : Bool × String)
    (h : s.1 = false) : (check3 env s).1 = false := by
  unfold check3
  by_cases hb : env.info_isfile
  · cases ho : env.infoOutcome <;> simp [hb, ho, h]
  · simp [hb]

theorem check4_fst_false (env : VEnv) (s : Bool × String)
    (h : s.1 = false) : (check4 env s).1 = false := by
  unfold check4
  by_cases hb : env.runpy_isfile <;> simp [hb, h]

theorem checksResult_fst (env : VEnv) (login : String) :
    (checksResult env login).1 =
      (env.mergeable && env.base_isdir && env.info_isfile &&
        (env.infoOutcome == InfoOutcome.ok) && env.runpy_isfile) := by
  rcases env with ⟨m, bd, fi, io, rp, ini, lo⟩
  cases m <;> cases bd <;> cases fi <;> cases io <;> cases rp <;> rfl

/-- Under `mergeable = false` and `runpy_isfile = false`, the accumulated
error string starts with the mergeability complaint and later contains the
missing-`run.py` complaint. -/
theorem checksResult_snd_decomp (env : VEnv) (login : String)
    (hm : env.mergeable = false) (hr : env.runpy_isfile = false) :
    ∃ mid : String,
      (checksResult env login).2 =
        ("Submission cannot be merged\n" ++ mid) ++ "Missing run.py\n" := by
  obtain ⟨a2, h2⟩ := check2_snd env login (check1 env)
  obtain ⟨a3, h3⟩ := check3_snd env (check2 env login (check1 env))
  have h1 : (check1 env).2 = "Submission cannot be merged\n" := by
    simp [check1, hm]
  have h4 : (checksResult env login).2 =
      (check3 env (check2 env login (check1 env))).2 ++ "Missing run.py\n" := by
    simp [checksResult, check4, hr]
  refine ⟨a2 ++ a3, ?_⟩
  rw [h4, h3, h2, h1]
  simp [String.append_assoc]

theorem validateFinish_false_parts (s : Bool × String) (c : Collection)
    (i : Nat) (t : Int) (h : s.1 = false) :
    (validateFinish s c i t).validated = false ∧
    (validateFinish s c i t).msg = "Validation failed:\n" ++ s.2 := by
  rcases s with ⟨v, e⟩
  cases v
  · exact ⟨rfl, rfl⟩
  · exact absurd h (by simp)

/-! ## Claim theorems about the validator -/

/-- Environment where every check passes. -/
def envAllOk : VEnv :=
  { mergeable := true, base_isdir := true, info_isfile := true,
    infoOutcome := InfoOutcome.ok, runpy_isfile := true, init_isfile := true,
    loadOutcome := LoadOutcome.ok }

/-- **C2 counterexample.** On a submission passing every check, `validate`
terminates normally but its Python return value is `None` (`validate` has
no `return` statement, `job.py` 306-360) — it does not return an
`(ok, message)` pair as the claim states. -/
theorem validate_returns_no_pair_ce :
    (validate envAllOk [] 1 "u" 5).map (fun r => r.ret) = Except.ok none := rfl

/-- **C2 (amended).** `validate` computes an internal verdict and message —
the verdict is true exactly when none of the structural/mergeability checks
failed, matching the spec-side `specOkVerdict` — and delivers the message
through the notifier, but returns no `(ok, message)` pair: the function's
value is `None`. (Stated for calls that terminate normally, i.e. when
the entry-point load does not raise a non-`ImportError` exception.) -/
theorem validate_verdict_no_return (env : VEnv) (c : Collection) (i : Nat)
    (login : String) (t : Int)
    (h : env.init_isfile = true → env.loadOutcome ≠ LoadOutcome.raised) :
    (validate env c i login t).map (fun r => (r.validated, r.ret)) =
      Except.ok (specOkVerdict env, none) := by
  by_cases hi : env.init_isfile
  · cases hl : env.loadOutcome
    · have hv : validate env c i login t =
          Except.ok (validateFinish (checksResult env login) c i t) := by
        simp [validate, hi, hl]
      rw [hv]
      simp [Except.map, validateFinish_validated, validateFinish_ret,
        checksResult_fst, specOkVerdict, hi, hl]
    · have hv : validate env c i login t =
          Except.ok (validateFinish
            (false, (checksResult env login).2 ++ "Cannot import run from run.py")
            c i t) := by
        simp [validate, hi, hl]
      rw [hv]
      simp [Except.map, validateFinish_validated, validateFinish_ret,
        specOkVerdict, hl]
    · exact absurd hl (h hi)
  · have hv : validate env c i login t =
        Except.ok (validateFinish
          (false, (checksResult env login).2 ++ "Missing __init__.py\n") c i t) := by
      simp [validate, hi]
    rw [hv]
    simp [Except.map, validateFinish_validated, validateFinish_ret,
      specOkVerdict, hi]

theorem validate_verdict_no_return_witness :
    ((validate envAllOk [] 1 "u" 5).map (fun r => (r.validated, r.ret)) =
      Except.ok (specOkVerdict envAllOk, none)) ∧
    specOkVerdict envAllOk = true :=
  ⟨validate_verdict_no_return envAllOk [] 1 "u" 5 (by decide), rfl⟩

/-- **C5.** Validation evaluates every check without short-circuiting:
with a non-mergeable submission whose `run.py` is also missing, the verdict
is false and the one failure message contains both the mergeability
complaint and the missing-entry-point complaint. -/
theorem validate_accumulates_all (env : VEnv) (c : Collection) (i : Nat)
    (login : String) (t : Int) (hm : env.mergeable = false)
    (hr : env.runpy_isfile = false)
    (h : env.init_isfile = true → env.loadOutcome ≠ LoadOutcome.raised) :
    (validate env c i login t).map (fun r => r.validated) = Except.ok false ∧
    containsStr (okMsg (validate env c i login t)) "Submission cannot be merged" ∧
    containsStr (okMsg (validate env c i login t)) "Missing run.py" := by
  obtain ⟨mid, hmid⟩ := checksResult_snd_decomp env login hm hr
  have hfst : (checksResult env login).1 = false := by
    rw [checksResult_fst, hm]
    simp
  have hdec : containsStr "Submission cannot be merged\n"
      "Submission cannot be merged" := by decide
  have hdec2 : containsStr "Missing run.py\n" "Missing run.py" := by decide
  by_cases hi : env.init_isfile
  · cases hl : env.loadOutcome
    · have hv : validate env c i login t =
          Except.ok (validateFinish (checksResult env login) c i t) := by
        simp [validate, hi, hl]
      obtain ⟨hval, hmsg⟩ :=
        validateFinish_false_parts (checksResult env login) c i t hfst
      refine ⟨by rw [hv]; simp [Except.map, hval], ?_, ?_⟩
      · rw [hv]
        show containsStr (validateFinish (checksResult env login) c i t).msg _
        rw [hmsg, hmid]
        exact containsStr_append_right _ _ _ (containsStr_append_left _ _ _
          (containsStr_append_left _ _ _ hdec))
      · rw [hv]
        show containsStr (validateFinish (checksResult env login) c i t).msg _
        rw [hmsg, hmid]
        exact containsStr_append_right _ _ _ (containsStr_append_right _ _ _ hdec2)
    · have hv : validate env c i login t =
          Except.ok (validateFinish
            (false, (checksResult env login).2 ++ "Cannot import run from run.py")
            c i t) := by
        simp [validate, hi, hl]
      obtain ⟨hval, hmsg⟩ := validateFinish_false_parts
        (false, (checksResult env login).2 ++ "Cannot import run from run.py")
        c i t rfl
      refine ⟨by rw [hv]; simp [Except.map, hval], ?_, ?_⟩
      · rw [hv]
        show containsStr (validateFinish
          (false, (checksResult env login).2 ++ "Cannot import run from run.py")
          c i t).msg _
        rw [hmsg]
        show containsStr (_ ++ ((checksResult env login).2 ++ _)) _
        rw [hmid]
        exact containsStr_append_right _ _ _ (containsStr_append_left _ _ _
          (containsStr_append_left _ _ _ (containsStr_append_left _ _ _ hdec)))
      · rw [hv]
        show containsStr (validateFinish
          (false, (checksResult env login).2 ++ "Cannot import run from run.py")
          c i t).msg _
        rw [hmsg]
        show containsStr (_ ++ ((checksResult env login).2 ++ _)) _
        rw [hmid]
        exact containsStr_append_right _ _ _ (containsStr_append_left _ _ _
          (containsStr_append_right _ _ _ hdec2))
    · exact absurd hl (h hi)
  · have hv : validate env c i login t =
        Except.ok (validateFinish
          (false, (checksResult env login).2 ++ "Missing __init__.py\n") c i t) := by
      simp [validate, hi]
    obtain ⟨hval, hmsg⟩ := validateFinish_false_parts
      (false, (checksResult env login).2 ++ "Missing __init__.py\n") c i t rfl
    refine ⟨by rw [hv]; simp [Except.map, hval], ?_, ?_⟩
    · rw [hv]
      show containsStr (validateFinish
        (false, (checksResult env login).2 ++ "Missing __init__.py\n") c i t).msg _
      rw [hmsg]
      show containsStr (_ ++ ((checksResult env login).2 ++ _)) _
      rw [hmid]
      exact containsStr_append_right _ _ _ (containsStr_append_left _ _ _
        (containsStr_append_left _ _ _ (containsStr_append_left _ _ _ hdec)))
    · rw [hv]
      show containsStr (validateFinish
        (false, (checksResult env login).2 ++ "Missing __init__.py\n") c i t).msg _
      rw [hmsg]
      show containsStr (_ ++ ((checksResult env login).2 ++ _)) _
      rw [hmid]
      exact containsStr_append_right _ _ _ (containsStr_append_left _ _ _
        (containsStr_append_right _ _ _ hdec2))

/-- Environment for the C5 witness: not mergeable, `run.py` missing,
everything else in place (the import of `run` then raises `ImportError`). -/
def envC5 : VEnv :=
  { mergeable := false, base_isdir := true, info_isfile := true,
    infoOutcome := InfoOutcome.ok, runpy_isfile := false, init_isfile := true,
    loadOutcome := LoadOutcome.importError }

theorem validate_accumulates_all_witness :
    (envC5.mergeable = false) ∧ (envC5.runpy_isfile = false) ∧
    ((validate envC5 [] 1 "u" 5).map (fun r => r.validated) = Except.ok false) ∧
    containsStr (okMsg (validate envC5 [] 1 "u" 5)) "Submission cannot be merged" ∧
    containsStr (okMsg (validate envC5 [] 1 "u" 5)) "Missing run.py" := by
  have h := validate_accumulates_all envC5 [] 1 "u" 5 rfl rfl (by decide)
  exact ⟨rfl, rfl, h.1, h.2.1, h.2.2⟩

/-- **C6.** When validation fails, the status collection is not written at
all: neither the `validated` flag nor `validated_at` changes — the record
keeps whatever it held before the call. Only a successful validation calls
`update_status`. -/
theorem validate_failure_collection_untouched (env : VEnv) (c : Collection)
    (i : Nat) (login : String) (t : Int) (r : VResult)
    (hok : validate env c i login t = Except.ok r)
    (hvf : r.validated = false) : r.collection = c := by
  have key : ∀ s : Bool × String, validateFinish s c i t = r →
      r.collection = c := by
    intro s hs
    have h1 : s.1 = false := by
      rw [← validateFinish_validated s c i t, hs]
      exact hvf
    rw [← hs]
    exact validateFinish_collection_of_false s c i t h1
  unfold validate at hok
  by_cases hi : env.init_isfile
  · rw [if_pos hi] at hok
    cases hl : env.loadOutcome <;> rw [hl] at hok
    · exact key _ (Except.ok.inj hok)
    · exact key _ (Except.ok.inj hok)
    · exact Except.noConfusion hok
  · rw [if_neg hi] at hok
    exact key _ (Except.ok.inj hok)

/-- A record whose `validated` flag was already true before the call. -/
def preValidated : StatusRecord :=
  setFlag (defaultRecord 1 "u") BoolField.validated true

/-- Environment for the C6 witness: only the mergeability check fails. -/
def envC6 : VEnv :=
  { mergeable := false, base_isdir := true, info_isfile := true,
    infoOutcome := InfoOutcome.ok, runpy_isfile := true, init_isfile := true,
    loadOutcome := LoadOutcome.ok }

theorem validate_failure_collection_untouched_witness :
    (validate envC6 [preValidated] 1 "u" 5 =
      Except.ok (validateFinish (checksResult envC6 "u") [preValidated] 1 5)) ∧
    ((validateFinish (checksResult envC6 "u") [preValidated] 1 5).validated =
      false) ∧
    ((validateFinish (checksResult envC6 "u") [preValidated] 1 5).collection =
      [preValidated]) := by
  refine ⟨rfl, rfl, ?_⟩
  exact validate_failure_collection_untouched envC6 [preValidated] 1 "u" 5 _
    rfl rfl

/-- Environment where everything is in place but the import of `run`
raises an exception that is not an `ImportError`. -/
def envRaised : VEnv :=
  { mergeable := true, base_isdir := true, info_isfile := true,
    infoOutcome := InfoOutcome.ok, runpy_isfile := true, init_isfile := true,
    loadOutcome := LoadOutcome.raised }

/-- **C9 counterexample.** The source catches only `ImportError`
(`job.py` 348). When loading the entry point fails at import time with any
other exception class, `validate` does not fail with the diagnostic — the
exception propagates out of `validate` (here: `Except.error ()`, with no
message produced). -/
theorem import_raise_propagates_ce :
    validate envRaised [] 1 "u" 5 = Except.error () ∧
    okMsg (validate envRaised [] 1 "u" 5) = "" := ⟨rfl, rfl⟩

/-- **C9 (amended).** If loading the entry point raises an `ImportError`,
validation fails with the "Cannot import run from run.py" diagnostic (the
failure is caught and recorded); import-time exceptions of other classes
propagate out of `validate` instead. -/
theorem import_error_recorded (env : VEnv) (c : Collection) (i : Nat)
    (login : String) (t : Int) (hi : env.init_isfile = true)
    (hl : env.loadOutcome = LoadOutcome.importError) :
    (validate env c i login t).map (fun r => r.validated) = Except.ok false ∧
    containsStr (okMsg (validate env c i login t))
      "Cannot import run from run.py" := by
  have hv : validate env c i login t =
      Except.ok (validateFinish
        (false, (checksResult env login).2 ++ "Cannot import run from run.py")
        c i t) := by
    simp [validate, hi, hl]
  obtain ⟨hval, hmsg⟩ := validateFinish_false_parts
    (false, (checksResult env login).2 ++ "Cannot import run from run.py")
    c i t rfl
  refine ⟨by rw [hv]; simp [Except.map, hval], ?_⟩
  rw [hv]
  show containsStr (validateFinish
    (false, (checksResult env login).2 ++ "Cannot import run from run.py")
    c i t).msg _
  rw [hmsg]
  show containsStr (_ ++ ((checksResult env login).2 ++ _)) _
  exact containsStr_append_right _ _ _ (containsStr_append_right _ _ _
    ⟨[], [], by simp⟩)

/-- Environment for the C9 witness: everything fine except the import
raises `ImportError`. -/
def envC9 : VEnv :=
  { mergeable := true, base_isdir := true, info_isfile := true,
    infoOutcome := InfoOutcome.ok, runpy_isfile := true, init_isfile := true,
    loadOutcome := LoadOutcome.importError }

theorem import_error_recorded_witness :
    (envC9.init_isfile = true) ∧
    (envC9.loadOutcome = LoadOutcome.importError) ∧
    ((validate envC9 [] 1 "u" 5).map (fun r => r.validated) = Except.ok false) ∧
    containsStr (okMsg (validate envC9 [] 1 "u" 5))
      "Cannot import run from run.py" := by
  have h := import_error_recorded envC9 [] 1 "u" 5 rfl rfl
  exact ⟨rfl, rfl, h.1, h.2⟩

end Neurofinder
